import Mathlib

/-
Verification of the rawdawg meal-planner core: a shallow embedding of the
zustand planner store (plan cost/quantity engine, edit history) and of the
portion calculator component, with the spec-level properties settled as
theorems.

Embedding conventions:
* decimal.js `Decimal` values are modelled as `ℚ`.  At the sizes appearing in
  these claims the 20-significant-digit default precision of decimal.js is
  exact, so `ℚ` arithmetic coincides with the source arithmetic.
* JS numbers used as integers (durationDays, mealsPerDay, numberOfMeals) are
  modelled as `ℤ`.
* The store runs inside the immer middleware.  Where an action pushes
  `state.currentPlan` (the immer draft) onto `history.past` and afterwards
  mutates that same draft (addFoodItem, updateFoodItemQuantity,
  updateFoodItemMealCount, removeFoodItem), immer finalises the draft to a
  single value shared by both references, so the entry stored in
  `history.past` equals the POST-edit plan.  The definitions below record the
  finalised values.  Actions that instead push the frozen pre-edit plan
  obtained from `get()` (updatePlanDetails, createNewPlan, loadPlan) store a
  genuine pre-edit snapshot.
* The JS `x || y` fallback on numbers treats `0` as falsy; it is modelled by
  `jsOrRat` / `jsOrInt`.  `Math.ceil` on a Decimal converted `toNumber` is
  modelled as the exact ceiling on `ℚ`.
* The store never throws and never writes `state.error` in the plan-editing
  actions; the `error` field of the modelled state is the only failure
  channel the store has.
-/

namespace Rawdawg

/-- Inventory food record as given to addFoodItem (fields the engine reads). -/
structure FoodItem where
  id : String
  weight : ℚ
  cost : ℚ
deriving DecidableEq

/-- PlannerFoodItem: a plan item carrying the food fields plus the derived
quantities, as in the store. -/
structure PlannerFoodItem where
  id : String
  weight : ℚ
  cost : ℚ
  quantityPerMeal : ℚ
  totalQuantity : ℚ
  totalCost : ℚ
  costPerKg : ℚ
  numberOfMeals : ℤ
deriving DecidableEq

/-- PlannerMealPlan (fields relevant to the claims; timestamps, dates and
notes are omitted as no claim mentions them). -/
structure PlannerMealPlan where
  id : String
  name : String
  durationDays : ℤ
  mealsPerDay : ℤ
  totalCost : ℚ
  items : List PlannerFoodItem
deriving DecidableEq

/-- Undo/redo history: two stacks of whole-plan snapshots. -/
structure HistoryState where
  past : List PlannerMealPlan
  future : List PlannerMealPlan
deriving DecidableEq

/-- The slice of the planner store state the claims are about. -/
structure PlannerState where
  currentPlan : Option PlannerMealPlan
  history : HistoryState
  error : Option String
deriving DecidableEq

/-- Helper from the store: plan.totalCost := items.reduce((t, i) => t.add(i.totalCost), 0). -/
def recalculateTotalCost (plan : PlannerMealPlan) : PlannerMealPlan :=
  { plan with totalCost := plan.items.foldl (fun total item => total + item.totalCost) 0 }

/-- addFoodItem action.  The history entry is the immer-finalised draft of
currentPlan, i.e. the post-edit plan (see header). -/
def addFoodItem (s : PlannerState) (foodItem : FoodItem) (quantityPerMeal : ℚ)
    (numberOfMeals : Option ℤ) : PlannerState :=
  match s.currentPlan with
  | none => s
  | some plan =>
    let totalMeals := plan.durationDays * plan.mealsPerDay
    let mealCount : ℤ :=
      match numberOfMeals with
      | some n => min n totalMeals
      | none => totalMeals
    let totalQuantity := quantityPerMeal * (mealCount : ℚ)
    let costPerUnit := foodItem.cost / foodItem.weight
    let costPerKg := costPerUnit * 1000
    let totalCost := costPerUnit * totalQuantity
    let newItem : PlannerFoodItem :=
      { id := foodItem.id
        weight := foodItem.weight
        cost := foodItem.cost
        quantityPerMeal := quantityPerMeal
        totalQuantity := totalQuantity
        totalCost := totalCost
        costPerKg := costPerKg
        numberOfMeals := mealCount }
    let newPlan := recalculateTotalCost { plan with items := plan.items ++ [newItem] }
    { s with
      currentPlan := some newPlan
      history := { past := s.history.past ++ [newPlan], future := [] } }

/-- findIndex followed by an in-place update of the found element: returns
none when no element matches (the itemIndex === -1 branch). -/
def updateFirst (p : PlannerFoodItem → Bool) (f : PlannerFoodItem → PlannerFoodItem) :
    List PlannerFoodItem → Option (List PlannerFoodItem)
  | [] => none
  | x :: xs =>
    if p x then some (f x :: xs)
    else (updateFirst p f xs).map (fun ys => x :: ys)

/-- Per-item update performed by updateFoodItemQuantity on the found item. -/
def updateQuantityItem (quantityPerMeal : ℚ) (item : PlannerFoodItem) : PlannerFoodItem :=
  let totalQuantity := quantityPerMeal * (item.numberOfMeals : ℚ)
  let costPerUnit := item.cost / item.weight
  { item with
    quantityPerMeal := quantityPerMeal
    totalQuantity := totalQuantity
    totalCost := costPerUnit * totalQuantity
    costPerKg := costPerUnit * 1000 }

/-- updateFoodItemQuantity action.  The history push and future-clear happen
before the lookup; the itemIndex === -1 branch returns with the plan
untouched but the history already modified. -/
def updateFoodItemQuantity (s : PlannerState) (foodItemId : String)
    (quantityPerMeal : ℚ) : PlannerState :=
  match s.currentPlan with
  | none => s
  | some plan =>
    match updateFirst (fun item => item.id == foodItemId)
        (updateQuantityItem quantityPerMeal) plan.items with
    | none =>
      { s with
        currentPlan := some plan
        history := { past := s.history.past ++ [plan], future := [] } }
    | some newItems =>
      let newPlan := recalculateTotalCost { plan with items := newItems }
      { s with
        currentPlan := some newPlan
        history := { past := s.history.past ++ [newPlan], future := [] } }

/-- Per-item update performed by updateFoodItemMealCount on the found item:
the only clamp is Math.min with the slot count (no lower bound, and
costPerKg is not refreshed in this action). -/
def updateMealCountItem (totalMeals : ℤ) (mealCount : ℤ) (item : PlannerFoodItem) :
    PlannerFoodItem :=
  let validMealCount := min mealCount totalMeals
  let totalQuantity := item.quantityPerMeal * (validMealCount : ℚ)
  let costPerUnit := item.cost / item.weight
  { item with
    numberOfMeals := validMealCount
    totalQuantity := totalQuantity
    totalCost := costPerUnit * totalQuantity }

/-- updateFoodItemMealCount action (same history-before-lookup shape as
updateFoodItemQuantity). -/
def updateFoodItemMealCount (s : PlannerState) (foodItemId : String)
    (mealCount : ℤ) : PlannerState :=
  match s.currentPlan with
  | none => s
  | some plan =>
    let totalMeals := plan.durationDays * plan.mealsPerDay
    match updateFirst (fun item => item.id == foodItemId)
        (updateMealCountItem totalMeals mealCount) plan.items with
    | none =>
      { s with
        currentPlan := some plan
        history := { past := s.history.past ++ [plan], future := [] } }
    | some newItems =>
      let newPlan := recalculateTotalCost { plan with items := newItems }
      { s with
        currentPlan := some newPlan
        history := { past := s.history.past ++ [newPlan], future := [] } }

/-- removeFoodItem action: filters the item out (silently a no-op on the items
when the id is absent) and recalculates the plan total. -/
def removeFoodItem (s : PlannerState) (foodItemId : String) : PlannerState :=
  match s.currentPlan with
  | none => s
  | some plan =>
    let newPlan :=
      recalculateTotalCost
        { plan with items := plan.items.filter (fun item => !(item.id == foodItemId)) }
    { s with
      currentPlan := some newPlan
      history := { past := s.history.past ++ [newPlan], future := [] } }

/-- The Partial MealPlan update object passed to updatePlanDetails
(fields the claims exercise). -/
structure PlanUpdates where
  name : Option String
  durationDays : Option ℤ
  mealsPerDay : Option ℤ
deriving DecidableEq

/-- JS `o || d` on an optionally-present integer field: 0 and absent both fall
back to d. -/
def jsOrInt (o : Option ℤ) (d : ℤ) : ℤ :=
  match o with
  | some v => if v = 0 then d else v
  | none => d

/-- Per-item recomputation performed by updatePlanDetails when the schedule
changed: clamp numberOfMeals from above, then refresh totalQuantity and
totalCost. -/
def clampPlanItem (totalMeals : ℤ) (item : PlannerFoodItem) : PlannerFoodItem :=
  let numberOfMeals := if item.numberOfMeals > totalMeals then totalMeals else item.numberOfMeals
  let totalQuantity := item.quantityPerMeal * (numberOfMeals : ℚ)
  { item with
    numberOfMeals := numberOfMeals
    totalQuantity := totalQuantity
    totalCost := item.cost / item.weight * totalQuantity }

/-- updatePlanDetails action.  It pushes the frozen pre-edit plan from get()
(not the draft), Object.assigns the updates, and only when durationDays or
mealsPerDay is among the updates does it cascade over the items and
recalculate the plan total. -/
def updatePlanDetails (s : PlannerState) (updates : PlanUpdates) : PlannerState :=
  match s.currentPlan with
  | none => s
  | some plan =>
    let assigned : PlannerMealPlan :=
      { plan with
        name := updates.name.getD plan.name
        durationDays := updates.durationDays.getD plan.durationDays
        mealsPerDay := updates.mealsPerDay.getD plan.mealsPerDay }
    let newPlan :=
      if updates.durationDays.isSome || updates.mealsPerDay.isSome then
        let durationDays := jsOrInt updates.durationDays assigned.durationDays
        let mealsPerDay := jsOrInt updates.mealsPerDay assigned.mealsPerDay
        let totalMeals := durationDays * mealsPerDay
        recalculateTotalCost
          { assigned with items := assigned.items.map (clampPlanItem totalMeals) }
      else assigned
    { s with
      currentPlan := some newPlan
      history := { past := s.history.past ++ [plan], future := [] } }

/-- undo action: the pop from past happens unconditionally once past is
nonempty; the restore is only performed when a plan is current. -/
def undo (s : PlannerState) : PlannerState :=
  if s.history.past.isEmpty then s
  else
    match s.history.past.getLast?, s.currentPlan with
    | some previous, some current =>
      { s with
        currentPlan := some previous
        history := { past := s.history.past.dropLast
                     future := s.history.future ++ [current] } }
    | _, _ =>
      { s with history := { past := s.history.past.dropLast, future := s.history.future } }

/-- redo action, symmetric to undo. -/
def redo (s : PlannerState) : PlannerState :=
  if s.history.future.isEmpty then s
  else
    match s.history.future.getLast?, s.currentPlan with
    | some next, some current =>
      { s with
        currentPlan := some next
        history := { past := s.history.past ++ [current]
                     future := s.history.future.dropLast } }
    | _, _ =>
      { s with history := { past := s.history.past, future := s.history.future.dropLast } }

/-- Food record nested in an API meal-plan item response. -/
structure ApiFoodItem where
  id : String
  weight : ℚ
  cost : ℚ
deriving DecidableEq

/-- One item of a persisted meal-plan record as returned by the API. -/
structure ApiPlanItem where
  foodItem : Option ApiFoodItem
  quantityPerMeal : ℚ
  totalQuantity : ℚ
  numberOfMeals : Option ℤ
deriving DecidableEq

/-- A persisted meal-plan record as returned by the API. -/
structure ApiPlan where
  id : String
  name : String
  durationDays : ℤ
  mealsPerDay : ℤ
  totalCost : ℚ
  items : List ApiPlanItem
deriving DecidableEq

/-- JS `a || b` on a numeric value: 0 falls back to b. -/
def jsOrRat (a b : ℚ) : ℚ := if a = 0 then b else a

/-- numberOfMeals || Math.ceil(totalQuantity / quantityPerMeal): the meal
count recovered for an item coming back from the API. -/
def apiMealCount (item : ApiPlanItem) : ℤ :=
  match item.numberOfMeals with
  | some n =>
    if n = 0 then ⌈jsOrRat item.totalQuantity 0 / jsOrRat item.quantityPerMeal 1⌉ else n
  | none => ⌈jsOrRat item.totalQuantity 0 / jsOrRat item.quantityPerMeal 1⌉

/-- Item processing inside loadPlan: items without a foodItem are dropped;
the item totalCost is recomputed as (cost / weight) * totalQuantity from the
CURRENT food record; numberOfMeals is taken from the record (or recovered by
ceiling division) without any clamping against the plan schedule. -/
def loadPlanProcessItem (item : ApiPlanItem) : Option PlannerFoodItem :=
  match item.foodItem with
  | none => none
  | some food =>
    let costPerUnit := food.cost / food.weight
    let costPerKg := costPerUnit * 1000
    some
      { id := food.id
        weight := jsOrRat food.weight 0
        cost := jsOrRat food.cost 0
        quantityPerMeal := jsOrRat item.quantityPerMeal 0
        totalQuantity := jsOrRat item.totalQuantity 0
        totalCost := costPerUnit * jsOrRat item.totalQuantity 0
        costPerKg := costPerKg
        numberOfMeals := apiMealCount item }

/-- Plan processing inside loadPlan: the plan-level totalCost is taken
verbatim from the stored record (with the || 0 fallback); it is NOT
recomputed from the processed items. -/
def loadPlanProcess (plan : ApiPlan) : PlannerMealPlan :=
  { id := plan.id
    name := plan.name
    durationDays := plan.durationDays
    mealsPerDay := plan.mealsPerDay
    totalCost := jsOrRat plan.totalCost 0
    items := plan.items.filterMap loadPlanProcessItem }

/-- State effect of loadPlan on success: push the prior current plan (the
frozen value from get(), a genuine snapshot) when present, clear future,
install the processed plan. -/
def loadPlanApply (s : PlannerState) (record : ApiPlan) : PlannerState :=
  { s with
    currentPlan := some (loadPlanProcess record)
    history :=
      { past := s.history.past ++
          (match s.currentPlan with
           | some plan => [plan]
           | none => [])
        future := [] }
    error := none }

/-- Item processing inside savePlan on the API response: unlike every other
path in the store, the item totalCost here is cost * totalQuantity WITHOUT
dividing by the package weight. -/
def savePlanProcessItem (item : ApiPlanItem) : Option PlannerFoodItem :=
  match item.foodItem with
  | none => none
  | some food =>
    some
      { id := food.id
        weight := jsOrRat food.weight 0
        cost := jsOrRat food.cost 0
        quantityPerMeal := jsOrRat item.quantityPerMeal 0
        totalQuantity := jsOrRat item.totalQuantity 0
        totalCost := jsOrRat food.cost 0 * jsOrRat item.totalQuantity 0
        costPerKg := jsOrRat food.cost 0 / jsOrRat food.weight 1 * 1000
        numberOfMeals := apiMealCount item }

/-
Portion calculator (PortionCalculator.tsx).  The component validates its
inputs through the form schema (positive weight and age, mealsPerDay between
1 and 6) before the effect computes; the functions below are the arithmetic
of the computation effect.
-/

/-- Activity levels of the calculator. -/
inductive ActivityLevel
  | puppy
  | low
  | moderate
  | high
  | senior
deriving DecidableEq

/-- Weight display unit. -/
inductive WeightUnit
  | kg
  | lbs
deriving DecidableEq

/-- Measure display unit. -/
inductive MeasureUnit
  | g
  | oz
deriving DecidableEq

/-- The fixed multiplier table ACTIVITY_MULTIPLIERS. -/
def ACTIVITY_MULTIPLIERS : ActivityLevel → ℚ
  | .low => 0.02
  | .moderate => 0.025
  | .high => 0.03
  | .puppy => 0.04
  | .senior => 0.0175

/-- Pounds-to-kilograms conversion constant. -/
def LBS_TO_KG : ℚ := 0.45359237

/-- Grams-to-ounces conversion constant. -/
def G_TO_OZ : ℚ := 0.03527396195

/-- Decimal.toDecimalPlaces(0) with the decimal.js default rounding
(ROUND_HALF_UP: round half away from zero). -/
def roundDp0 (x : ℚ) : ℚ :=
  if 0 ≤ x then ((⌊x + 1 / 2⌋ : ℤ) : ℚ) else -((⌊-x + 1 / 2⌋ : ℤ) : ℚ)

/-- The unrounded daily portion: convert to kg, apply the multiplier times
1000, optionally convert grams to ounces. -/
def rawDailyPortion (weight : ℚ) (weightUnit : WeightUnit)
    (activityLevel : ActivityLevel) (measureUnit : MeasureUnit) : ℚ :=
  let weightInKg :=
    match weightUnit with
    | .lbs => weight * LBS_TO_KG
    | .kg => weight
  let dailyPortionGrams := weightInKg * 1000 * ACTIVITY_MULTIPLIERS activityLevel
  match measureUnit with
  | .oz => dailyPortionGrams * G_TO_OZ
  | .g => dailyPortionGrams

/-- The displayed/stored daily portion: the raw value rounded to 0 decimal
places. -/
def dailyPortion (weight : ℚ) (weightUnit : WeightUnit)
    (activityLevel : ActivityLevel) (measureUnit : MeasureUnit) : ℚ :=
  roundDp0 (rawDailyPortion weight weightUnit activityLevel measureUnit)

/-- The per-meal portion: the UNROUNDED daily portion divided by mealsPerDay
and then rounded independently; only computed when mealsPerDay > 0. -/
def mealPortion (weight : ℚ) (weightUnit : WeightUnit)
    (activityLevel : ActivityLevel) (measureUnit : MeasureUnit)
    (mealsPerDay : ℤ) : Option ℚ :=
  if 0 < mealsPerDay then
    some (roundDp0 (rawDailyPortion weight weightUnit activityLevel measureUnit /
      (mealsPerDay : ℚ)))
  else none

/-
Invariant predicates and concrete fixtures used by the theorems.
-/

/-- Exact decimal sum of the item totalCost values, as recalculateTotalCost
computes it. -/
def sumItemCosts (items : List PlannerFoodItem) : ℚ :=
  items.foldl (fun total item => total + item.totalCost) 0

/-- The sum invariant of the spec: plan.totalCost equals the sum of the item
totalCost values. -/
def planConsistent (plan : PlannerMealPlan) : Prop :=
  plan.totalCost = sumItemCosts plan.items

/-- The sum invariant lifted to the store state. -/
def stateConsistent (s : PlannerState) : Prop :=
  ∀ plan, s.currentPlan = some plan → planConsistent plan

/-- The clamp invariant of the spec: no item uses more meals than the plan
has slots. -/
def planClamped (plan : PlannerMealPlan) : Prop :=
  ∀ item ∈ plan.items, item.numberOfMeals ≤ plan.durationDays * plan.mealsPerDay

/-- The clamp invariant lifted to the store state. -/
def stateClamped (s : PlannerState) : Prop :=
  ∀ plan, s.currentPlan = some plan → planClamped plan

/-- Scenario food: package weight 2000, package cost 20.00. -/
def sampleFood : FoodItem := { id := "food-1", weight := 2000, cost := 20 }

/-- An empty 7-day, 2-meals-per-day plan (14 slots). -/
def emptyPlan : PlannerMealPlan :=
  { id := "plan-1"
    name := "Test Plan"
    durationDays := 7
    mealsPerDay := 2
    totalCost := 0
    items := [] }

/-- Store state holding the empty plan and no history. -/
def emptyState : PlannerState :=
  { currentPlan := some emptyPlan
    history := { past := [], future := [] }
    error := none }

/-- The scenario-A item: 200 per meal over 14 meals of the sample food. -/
def sampleItem : PlannerFoodItem :=
  { id := "food-1"
    weight := 2000
    cost := 20
    quantityPerMeal := 200
    totalQuantity := 2800
    totalCost := 28
    costPerKg := 10
    numberOfMeals := 14 }

/-- A consistent plan holding the scenario item. -/
def planWithItem : PlannerMealPlan :=
  { emptyPlan with items := [sampleItem], totalCost := 28 }

/-- Store state holding planWithItem and no history. -/
def stateWithItem : PlannerState :=
  { currentPlan := some planWithItem
    history := { past := [], future := [] }
    error := none }

/-- API food record matching sampleFood. -/
def apiFood : ApiFoodItem := { id := "food-1", weight := 2000, cost := 20 }

/-- A stored plan item consistent with the scenario quantities. -/
def apiItem : ApiPlanItem :=
  { foodItem := some apiFood
    quantityPerMeal := 200
    totalQuantity := 2800
    numberOfMeals := some 14 }

/-- A stored plan whose persisted totalCost (5) differs from the recomputed
sum of its single item (28). -/
def apiPlanStale : ApiPlan :=
  { id := "plan-1"
    name := "Loaded Plan"
    durationDays := 7
    mealsPerDay := 2
    totalCost := 5
    items := [apiItem] }

/-- A stored plan item whose numberOfMeals (100) exceeds the 14 slots of the
plan it belongs to. -/
def apiItemOversized : ApiPlanItem := { apiItem with numberOfMeals := some 100 }

/-- A stored plan containing the oversized item. -/
def apiPlanOversized : ApiPlan :=
  { apiPlanStale with totalCost := 28, items := [apiItemOversized] }

/-
Helper lemmas.
-/

theorem planConsistent_recalculateTotalCost (plan : PlannerMealPlan) :
    planConsistent (recalculateTotalCost plan) := rfl

theorem updateFirst_eq_none {p : PlannerFoodItem → Bool}
    {f : PlannerFoodItem → PlannerFoodItem} :
    ∀ {l : List PlannerFoodItem}, updateFirst p f l = none ↔ ∀ a ∈ l, p a = false := by
  intro l
  induction l with
  | nil => simp [updateFirst]
  | cons x xs ih =>
    by_cases hx : p x
    · simp [updateFirst, hx]
    · simp only [updateFirst, hx, if_neg, Bool.false_eq_true, not_false_eq_true,
        Option.map_eq_none', List.mem_cons]
      constructor
      · intro h a ha
        rcases ha with rfl | ha
        · simpa using hx
        · exact ih.mp h a ha
      · intro h
        exact ih.mpr fun a ha => h a (Or.inr ha)

theorem updateFirst_mem {p : PlannerFoodItem → Bool}
    {f : PlannerFoodItem → PlannerFoodItem} :
    ∀ {l l2 : List PlannerFoodItem}, updateFirst p f l = some l2 →
      ∀ b ∈ l2, b ∈ l ∨ ∃ a ∈ l, p a = true ∧ b = f a := by
  intro l
  induction l with
  | nil => intro l2 h; simp [updateFirst] at h
  | cons x xs ih =>
    intro l2 h b hb
    by_cases hx : p x
    · rw [updateFirst, if_pos hx, Option.some.injEq] at h
      subst h
      rcases List.mem_cons.mp hb with rfl | hb
      · exact Or.inr ⟨x, List.mem_cons_self x xs, hx, rfl⟩
      · exact Or.inl (List.mem_cons_of_mem x hb)
    · rw [updateFirst, if_neg hx, Option.map_eq_some'] at h
      obtain ⟨ys, hys, hcons⟩ := h
      subst hcons
      rcases List.mem_cons.mp hb with rfl | hb
      · exact Or.inl (List.mem_cons_self b xs)
      · rcases ih hys b hb with h1 | ⟨a, ha, hpa, hba⟩
        · exact Or.inl (List.mem_cons_of_mem x h1)
        · exact Or.inr ⟨a, List.mem_cons_of_mem x ha, hpa, hba⟩

theorem updateFirst_exists {p : PlannerFoodItem → Bool}
    {f : PlannerFoodItem → PlannerFoodItem} :
    ∀ {l l2 : List PlannerFoodItem}, updateFirst p f l = some l2 →
      ∃ a ∈ l, p a = true ∧ f a ∈ l2 := by
  intro l
  induction l with
  | nil => intro l2 h; simp [updateFirst] at h
  | cons x xs ih =>
    intro l2 h
    by_cases hx : p x
    · rw [updateFirst, if_pos hx, Option.some.injEq] at h
      subst h
      exact ⟨x, List.mem_cons_self x xs, hx, List.mem_cons_self (f x) xs⟩
    · rw [updateFirst, if_neg hx, Option.map_eq_some'] at h
      obtain ⟨ys, hys, hcons⟩ := h
      subst hcons
      obtain ⟨a, ha, hpa, hfa⟩ := ih hys
      exact ⟨a, List.mem_cons_of_mem x ha, hpa, List.mem_cons_of_mem x hfa⟩

theorem jsOrInt_getD (o : Option ℤ) (d : ℤ) : jsOrInt o (o.getD d) = o.getD d := by
  cases o with
  | none => rfl
  | some v =>
    simp only [jsOrInt, Option.getD_some]
    split <;> simp_all

theorem roundDp0_mono {x y : ℚ} (h : x ≤ y) : roundDp0 x ≤ roundDp0 y := by
  unfold roundDp0
  by_cases hx : 0 ≤ x
  · have hy : 0 ≤ y := le_trans hx h
    rw [if_pos hx, if_pos hy]
    exact_mod_cast Int.floor_le_floor (by linarith)
  · by_cases hy : 0 ≤ y
    · rw [if_neg hx, if_pos hy]
      have h1 : (0 : ℤ) ≤ ⌊-x + 1 / 2⌋ := Int.floor_nonneg.mpr (by push_neg at hx; linarith)
      have h2 : (0 : ℤ) ≤ ⌊y + 1 / 2⌋ := Int.floor_nonneg.mpr (by linarith)
      have : -((⌊-x + 1 / 2⌋ : ℤ) : ℚ) ≤ 0 := by exact_mod_cast neg_nonpos.mpr (by exact_mod_cast h1)
      have h3 : (0 : ℚ) ≤ ((⌊y + 1 / 2⌋ : ℤ) : ℚ) := by exact_mod_cast h2
      linarith
    · rw [if_neg hx, if_neg hy]
      have h1 : ⌊-y + 1 / 2⌋ ≤ ⌊-x + 1 / 2⌋ := Int.floor_le_floor (by linarith)
      have h2 : ((⌊-y + 1 / 2⌋ : ℤ) : ℚ) ≤ ((⌊-x + 1 / 2⌋ : ℤ) : ℚ) := by exact_mod_cast h1
      linarith

theorem activityMultiplier_nonneg (activityLevel : ActivityLevel) :
    0 ≤ ACTIVITY_MULTIPLIERS activityLevel := by
  cases activityLevel <;> norm_num [ACTIVITY_MULTIPLIERS]

theorem stateConsistent_addFoodItem {s : PlannerState} (food : FoodItem) (q : ℚ)
    (n : Option ℤ) (h : stateConsistent s) : stateConsistent (addFoodItem s food q n) := by
  intro p hp
  cases hs : s.currentPlan with
  | none => simp [addFoodItem, hs] at hp
  | some plan =>
    simp only [addFoodItem, hs, Option.some.injEq] at hp
    subst hp
    exact planConsistent_recalculateTotalCost _

theorem stateConsistent_updateFoodItemQuantity {s : PlannerState} (foodItemId : String)
    (q : ℚ) (h : stateConsistent s) : stateConsistent (updateFoodItemQuantity s foodItemId q) := by
  intro p hp
  cases hs : s.currentPlan with
  | none => simp [updateFoodItemQuantity, hs] at hp
  | some plan =>
    cases hu : updateFirst (fun item => item.id == foodItemId)
        (updateQuantityItem q) plan.items with
    | none =>
      simp only [updateFoodItemQuantity, hs, hu, Option.some.injEq] at hp
      subst hp
      exact h plan hs
    | some newItems =>
      simp only [updateFoodItemQuantity, hs, hu, Option.some.injEq] at hp
      subst hp
      exact planConsistent_recalculateTotalCost _

theorem stateConsistent_updateFoodItemMealCount {s : PlannerState} (foodItemId : String)
    (m : ℤ) (h : stateConsistent s) : stateConsistent (updateFoodItemMealCount s foodItemId m) := by
  intro p hp
  cases hs : s.currentPlan with
  | none => simp [updateFoodItemMealCount, hs] at hp
  | some plan =>
    cases hu : updateFirst (fun item => item.id == foodItemId)
        (updateMealCountItem (plan.durationDays * plan.mealsPerDay) m) plan.items with
    | none =>
      simp only [updateFoodItemMealCount, hs, hu, Option.some.injEq] at hp
      subst hp
      exact h plan hs
    | some newItems =>
      simp only [updateFoodItemMealCount, hs, hu, Option.some.injEq] at hp
      subst hp
      exact planConsistent_recalculateTotalCost _

theorem stateConsistent_removeFoodItem {s : PlannerState} (foodItemId : String)
    (h : stateConsistent s) : stateConsistent (removeFoodItem s foodItemId) := by
  intro p hp
  cases hs : s.currentPlan with
  | none => simp [removeFoodItem, hs] at hp
  | some plan =>
    simp only [removeFoodItem, hs, Option.some.injEq] at hp
    subst hp
    exact planConsistent_recalculateTotalCost _

theorem stateConsistent_updatePlanDetails {s : PlannerState} (updates : PlanUpdates)
    (h : stateConsistent s) : stateConsistent (updatePlanDetails s updates) := by
  intro p hp
  cases hs : s.currentPlan with
  | none => simp [updatePlanDetails, hs] at hp
  | some plan =>
    by_cases hcond : (updates.durationDays.isSome || updates.mealsPerDay.isSome) = true
    · simp only [updatePlanDetails, hs, hcond, if_pos, Option.some.injEq] at hp
      subst hp
      exact planConsistent_recalculateTotalCost _
    · simp only [updatePlanDetails, hs, hcond, if_neg, Bool.false_eq_true, not_false_eq_true,
        Option.some.injEq] at hp
      subst hp
      have hplan := h plan hs
      simpa [planConsistent] using hplan

theorem stateClamped_addFoodItem {s : PlannerState} (food : FoodItem) (q : ℚ)
    (n : Option ℤ) (h : stateClamped s) : stateClamped (addFoodItem s food q n) := by
  intro p hp
  cases hs : s.currentPlan with
  | none => simp [addFoodItem, hs] at hp
  | some plan =>
    simp only [addFoodItem, hs, Option.some.injEq] at hp
    subst hp
    intro item hitem
    simp only [recalculateTotalCost, List.mem_append, List.mem_singleton] at hitem
    rcases hitem with hitem | rfl
    · exact h plan hs item hitem
    · show (match n with
        | some k => min k (plan.durationDays * plan.mealsPerDay)
        | none => plan.durationDays * plan.mealsPerDay) ≤
          plan.durationDays * plan.mealsPerDay
      cases n with
      | some k => exact min_le_right _ _
      | none => exact le_refl _

theorem stateClamped_updateFoodItemQuantity {s : PlannerState} (foodItemId : String)
    (q : ℚ) (h : stateClamped s) : stateClamped (updateFoodItemQuantity s foodItemId q) := by
  intro p hp
  cases hs : s.currentPlan with
  | none => simp [updateFoodItemQuantity, hs] at hp
  | some plan =>
    cases hu : updateFirst (fun item => item.id == foodItemId)
        (updateQuantityItem q) plan.items with
    | none =>
      simp only [updateFoodItemQuantity, hs, hu, Option.some.injEq] at hp
      subst hp
      exact h plan hs
    | some newItems =>
      simp only [updateFoodItemQuantity, hs, hu, Option.some.injEq] at hp
      subst hp
      intro item hitem
      simp only [recalculateTotalCost] at hitem
      rcases updateFirst_mem hu item hitem with hmem | ⟨a, ha, _, rfl⟩
      · exact h plan hs item hmem
      · exact h plan hs a ha

theorem stateClamped_updateFoodItemMealCount {s : PlannerState} (foodItemId : String)
    (m : ℤ) (h : stateClamped s) : stateClamped (updateFoodItemMealCount s foodItemId m) := by
  intro p hp
  cases hs : s.currentPlan with
  | none => simp [updateFoodItemMealCount, hs] at hp
  | some plan =>
    cases hu : updateFirst (fun item => item.id == foodItemId)
        (updateMealCountItem (plan.durationDays * plan.mealsPerDay) m) plan.items with
    | none =>
      simp only [updateFoodItemMealCount, hs, hu, Option.some.injEq] at hp
      subst hp
      exact h plan hs
    | some newItems =>
      simp only [updateFoodItemMealCount, hs, hu, Option.some.injEq] at hp
      subst hp
      intro item hitem
      simp only [recalculateTotalCost] at hitem
      rcases updateFirst_mem hu item hitem with hmem | ⟨a, ha, _, rfl⟩
      · exact h plan hs item hmem
      · exact min_le_right _ _

theorem stateClamped_removeFoodItem {s : PlannerState} (foodItemId : String)
    (h : stateClamped s) : stateClamped (removeFoodItem s foodItemId) := by
  intro p hp
  cases hs : s.currentPlan with
  | none => simp [removeFoodItem, hs] at hp
  | some plan =>
    simp only [removeFoodItem, hs, Option.some.injEq] at hp
    subst hp
    intro item hitem
    simp only [recalculateTotalCost] at hitem
    exact h plan hs item (List.mem_of_mem_filter hitem)

theorem stateClamped_updatePlanDetails {s : PlannerState} (updates : PlanUpdates)
    (h : stateClamped s) : stateClamped (updatePlanDetails s updates) := by
  intro p hp
  cases hs : s.currentPlan with
  | none => simp [updatePlanDetails, hs] at hp
  | some plan =>
    by_cases hcond : (updates.durationDays.isSome || updates.mealsPerDay.isSome) = true
    · simp only [updatePlanDetails, hs, hcond, if_pos, Option.some.injEq] at hp
      subst hp
      intro item hitem
      simp only [recalculateTotalCost, List.mem_map] at hitem
      obtain ⟨a, _, rfl⟩ := hitem
      simp only [recalculateTotalCost, clampPlanItem, jsOrInt_getD]
      split
      · omega
      · omega
    · simp only [updatePlanDetails, hs, hcond, if_neg, Bool.false_eq_true, not_false_eq_true,
        Option.some.injEq] at hp
      subst hp
      intro item hitem
      have hd : updates.durationDays = none := by
        cases hdu : updates.durationDays <;> simp [hdu] at hcond ⊢
      have hm : updates.mealsPerDay = none := by
        cases hmu : updates.mealsPerDay <;> simp [hmu] at hcond ⊢
      simp only [hd, hm, Option.getD_none]
      exact h plan hs item hitem

theorem rawDailyPortion_mono {w1 w2 : ℚ} (weightUnit : WeightUnit)
    (activityLevel : ActivityLevel) (measureUnit : MeasureUnit) (h : w1 ≤ w2) :
    rawDailyPortion w1 weightUnit activityLevel measureUnit ≤
      rawDailyPortion w2 weightUnit activityLevel measureUnit := by
  have hm := activityMultiplier_nonneg activityLevel
  have hlbs : (0 : ℚ) ≤ LBS_TO_KG := by norm_num [LBS_TO_KG]
  have hoz : (0 : ℚ) ≤ G_TO_OZ := by norm_num [G_TO_OZ]
  unfold rawDailyPortion
  cases weightUnit <;> cases measureUnit <;> dsimp only
  · exact mul_le_mul_of_nonneg_right
      (mul_le_mul_of_nonneg_right h (by norm_num)) hm
  · exact mul_le_mul_of_nonneg_right
      (mul_le_mul_of_nonneg_right (mul_le_mul_of_nonneg_right h (by norm_num)) hm) hoz
  · exact mul_le_mul_of_nonneg_right
      (mul_le_mul_of_nonneg_right (mul_le_mul_of_nonneg_right h hlbs) (by norm_num)) hm
  · exact mul_le_mul_of_nonneg_right
      (mul_le_mul_of_nonneg_right
        (mul_le_mul_of_nonneg_right (mul_le_mul_of_nonneg_right h hlbs) (by norm_num)) hm) hoz

/-
Claim theorems.
-/

/-- C1 counterexample: the load-plan processing takes the plan-level totalCost
verbatim from storage (5 here) while recomputing the item totals (28 here), so
immediately after loading, plan.totalCost differs from the sum of the item
totalCost values; the claim fails for the load-plan processing. -/
theorem C1_loadPlan_breaks_sum_invariant :
    (loadPlanApply emptyState apiPlanStale).currentPlan = some (loadPlanProcess apiPlanStale) ∧
    ¬ planConsistent (loadPlanProcess apiPlanStale) := by
  constructor
  · rfl
  · simp only [planConsistent, loadPlanProcess, loadPlanProcessItem, apiPlanStale, apiItem,
      apiFood, jsOrRat, sumItemCosts, apiMealCount, List.filterMap_cons, List.filterMap_nil,
      List.foldl_cons, List.foldl_nil]
    norm_num

/-- C1 (amended): after each of the in-memory mutating operations (addItem,
updateItemQuantity, updateItemMealCount, removeItem, updatePlanSchedule) the
current plan totalCost equals the exact decimal sum of its item totalCost
values (established by the recalculation, or preserved on the silent no-op
paths); the invariant is NOT guaranteed after the load-plan processing. -/
theorem C1_sum_invariant_after_mutations (s : PlannerState) (food : FoodItem)
    (q : ℚ) (n : Option ℤ) (foodItemId : String) (q2 : ℚ) (m : ℤ)
    (updates : PlanUpdates) (h : stateConsistent s) :
    stateConsistent (addFoodItem s food q n) ∧
    stateConsistent (updateFoodItemQuantity s foodItemId q2) ∧
    stateConsistent (updateFoodItemMealCount s foodItemId m) ∧
    stateConsistent (removeFoodItem s foodItemId) ∧
    stateConsistent (updatePlanDetails s updates) :=
  ⟨stateConsistent_addFoodItem food q n h,
   stateConsistent_updateFoodItemQuantity foodItemId q2 h,
   stateConsistent_updateFoodItemMealCount foodItemId m h,
   stateConsistent_removeFoodItem foodItemId h,
   stateConsistent_updatePlanDetails updates h⟩

/-- C1 witness: the amended invariant instantiated on the concrete empty
plan state. -/
theorem C1_sum_invariant_after_mutations_witness :
    stateConsistent emptyState ∧
    (stateConsistent (addFoodItem emptyState sampleFood 200 (some 14)) ∧
     stateConsistent (updateFoodItemQuantity emptyState "food-1" 5) ∧
     stateConsistent (updateFoodItemMealCount emptyState "food-1" 3) ∧
     stateConsistent (removeFoodItem emptyState "food-1") ∧
     stateConsistent (updatePlanDetails emptyState
       { name := none, durationDays := some 5, mealsPerDay := none })) := by
  have hc : stateConsistent emptyState := by
    intro p hp
    injection hp with hp2
    subst hp2
    rfl
  exact ⟨hc, C1_sum_invariant_after_mutations emptyState sampleFood 200 (some 14) "food-1" 5 3
    { name := none, durationDays := some 5, mealsPerDay := none } hc⟩

/-- C2: the claim states every path computes item totalCost as
(cost / weight) * totalQuantity, but the savePlan response processing stores
cost * totalQuantity without dividing by weight: on the scenario item
(cost 20, weight 2000, totalQuantity 2800) the code yields 56000 while the
claimed formula yields 28. -/
theorem C2_savePlan_item_cost_eval :
    (savePlanProcessItem apiItem).map (fun item => item.totalCost) = some 56000 ∧
    (savePlanProcessItem apiItem).map
        (fun item => item.cost / item.weight * item.totalQuantity) = some 28 := by
  constructor <;>
  · simp only [savePlanProcessItem, apiItem, apiFood, jsOrRat, apiMealCount, Option.map_some']
    norm_num

/-- C3: the claim states undo returns the plan to its pre-edit state, but the
item-level actions push the immer draft of currentPlan and then mutate it, so
the history entry finalises to the post-edit plan: after adding an item to the
empty plan and calling undo, the current plan still has 1 item (the pre-edit
plan had 0) and undo left currentPlan unchanged. -/
theorem C3_undo_does_not_restore :
    ((addFoodItem emptyState sampleFood 200 (some 14)).currentPlan.map
        (fun plan => plan.items.length)) = some 1 ∧
    emptyState.currentPlan.map (fun plan => plan.items.length) = some 0 ∧
    (undo (addFoodItem emptyState sampleFood 200 (some 14))).currentPlan =
      (addFoodItem emptyState sampleFood 200 (some 14)).currentPlan := by
  refine ⟨?_, rfl, ?_⟩
  · simp [addFoodItem, emptyState, emptyPlan, sampleFood, recalculateTotalCost]
  · simp [addFoodItem, emptyState, emptyPlan, sampleFood, recalculateTotalCost, undo]

/-- C4 counterexample: loadPlan performs no clamping, so loading a stored plan
with 14 slots whose item has numberOfMeals 100 produces a current plan that
violates the clamp invariant. -/
theorem C4_loadPlan_breaks_clamp_invariant :
    (loadPlanApply emptyState apiPlanOversized).currentPlan =
      some (loadPlanProcess apiPlanOversized) ∧
    ¬ planClamped (loadPlanProcess apiPlanOversized) := by
  constructor
  · rfl
  · simp only [planClamped, loadPlanProcess, loadPlanProcessItem, apiPlanOversized,
      apiPlanStale, apiItemOversized, apiItem, apiFood, jsOrRat, apiMealCount,
      List.filterMap_cons, List.filterMap_nil, List.mem_singleton, not_forall]
    norm_num

/-- C4 (amended): every item satisfies numberOfMeals ≤ durationDays *
mealsPerDay after each in-memory mutating operation (including immediately
after updatePlanDetails shrinks the schedule, which clamps every item); the
invariant is NOT enforced by the load-plan processing. -/
theorem C4_clamp_invariant_after_mutations (s : PlannerState) (food : FoodItem)
    (q : ℚ) (n : Option ℤ) (foodItemId : String) (q2 : ℚ) (m : ℤ)
    (updates : PlanUpdates) (h : stateClamped s) :
    stateClamped (addFoodItem s food q n) ∧
    stateClamped (updateFoodItemQuantity s foodItemId q2) ∧
    stateClamped (updateFoodItemMealCount s foodItemId m) ∧
    stateClamped (removeFoodItem s foodItemId) ∧
    stateClamped (updatePlanDetails s updates) :=
  ⟨stateClamped_addFoodItem food q n h,
   stateClamped_updateFoodItemQuantity foodItemId q2 h,
   stateClamped_updateFoodItemMealCount foodItemId m h,
   stateClamped_removeFoodItem foodItemId h,
   stateClamped_updatePlanDetails updates h⟩

/-- C4 witness: the amended clamp invariant instantiated on the concrete
empty plan state, shrinking the schedule to 5 days. -/
theorem C4_clamp_invariant_after_mutations_witness :
    stateClamped emptyState ∧
    (stateClamped (addFoodItem emptyState sampleFood 200 (some 14)) ∧
     stateClamped (updateFoodItemQuantity emptyState "food-1" 5) ∧
     stateClamped (updateFoodItemMealCount emptyState "food-1" 3) ∧
     stateClamped (removeFoodItem emptyState "food-1") ∧
     stateClamped (updatePlanDetails emptyState
       { name := none, durationDays := some 5, mealsPerDay := none })) := by
  have hc : stateClamped emptyState := by
    intro p hp
    injection hp with hp2
    subst hp2
    intro item hitem
    simp [emptyPlan] at hitem
  exact ⟨hc, C4_clamp_invariant_after_mutations emptyState sampleFood 200 (some 14) "food-1" 5 3
    { name := none, durationDays := some 5, mealsPerDay := none } hc⟩

/-- C5: adding a food with weight 2000 and cost 20 to any plan with at least
14 slots, with quantityPerMeal 200 and numberOfMeals 14, appends an item with
totalQuantity 2800, unit cost (cost / weight) 0.01 and totalCost 28. -/
theorem C5_scenarioA (s : PlannerState) (plan : PlannerMealPlan) (food : FoodItem)
    (hplan : s.currentPlan = some plan)
    (hslots : 14 ≤ plan.durationDays * plan.mealsPerDay)
    (hweight : food.weight = 2000) (hcost : food.cost = 20) :
    ((addFoodItem s food 200 (some 14)).currentPlan.bind
        (fun plan2 => plan2.items.getLast?)).map
        (fun item => (item.totalQuantity, item.cost / item.weight, item.totalCost)) =
      some (2800, 1 / 100, 28) := by
  have hmin : min (14 : ℤ) (plan.durationDays * plan.mealsPerDay) = 14 := min_eq_left hslots
  simp only [addFoodItem, hplan, recalculateTotalCost, Option.bind_some, Option.some_bind,
    List.getLast?_concat, Option.map_some', hmin, hweight, hcost]
  norm_num

/-- C5 witness: scenario A on the concrete empty 7x2 plan. -/
theorem C5_scenarioA_witness :
    emptyState.currentPlan = some emptyPlan ∧
    (14 : ℤ) ≤ emptyPlan.durationDays * emptyPlan.mealsPerDay ∧
    sampleFood.weight = 2000 ∧ sampleFood.cost = 20 ∧
    ((addFoodItem emptyState sampleFood 200 (some 14)).currentPlan.bind
        (fun plan2 => plan2.items.getLast?)).map
        (fun item => (item.totalQuantity, item.cost / item.weight, item.totalCost)) =
      some (2800, 1 / 100, 28) :=
  ⟨rfl, by norm_num [emptyPlan], rfl, rfl,
   C5_scenarioA emptyState emptyPlan sampleFood rfl (by norm_num [emptyPlan]) rfl rfl⟩

/-- C6 counterexample: invoking updateFoodItemQuantity on a concrete plan with
an absent item id completes silently: no failure is raised (the error field
stays none, and the action neither throws nor signals ItemNotFound), while
the claim requires a raised ItemNotFound failure. -/
theorem C6_missing_id_is_silent :
    stateWithItem.error = none ∧
    (∀ item ∈ planWithItem.items, (item.id == "missing-id") = false) ∧
    (updateFoodItemQuantity stateWithItem "missing-id" 5).error = none ∧
    (updateFoodItemQuantity stateWithItem "missing-id" 5).currentPlan = some planWithItem := by
  refine ⟨rfl, ?_, ?_, ?_⟩
  · simp [planWithItem, emptyPlan, sampleItem]
  · simp [updateFoodItemQuantity, stateWithItem, planWithItem, emptyPlan, sampleItem,
      updateFirst, updateQuantityItem]
  · simp [updateFoodItemQuantity, stateWithItem, planWithItem, emptyPlan, sampleItem,
      updateFirst, updateQuantityItem]

/-- C6 (amended): when updateItemQuantity is invoked with an item id absent
from the current plan, the lookup miss is silently ignored: no error is
raised (the error field is untouched) and the current plan is unchanged, but
a history snapshot is still pushed and the redo history is cleared. -/
theorem C6_missing_id_theorem (s : PlannerState) (plan : PlannerMealPlan)
    (foodItemId : String) (q : ℚ) (hplan : s.currentPlan = some plan)
    (habsent : ∀ item ∈ plan.items, (item.id == foodItemId) = false) :
    (updateFoodItemQuantity s foodItemId q).error = s.error ∧
    (updateFoodItemQuantity s foodItemId q).currentPlan = some plan ∧
    (updateFoodItemQuantity s foodItemId q).history.past = s.history.past ++ [plan] ∧
    (updateFoodItemQuantity s foodItemId q).history.future = [] := by
  have hu : updateFirst (fun item => item.id == foodItemId)
      (updateQuantityItem q) plan.items = none := updateFirst_eq_none.mpr habsent
  simp [updateFoodItemQuantity, hplan, hu]

/-- C6 witness: the amended statement instantiated on the concrete
one-item plan and an absent id. -/
theorem C6_missing_id_theorem_witness :
    stateWithItem.currentPlan = some planWithItem ∧
    (∀ item ∈ planWithItem.items, (item.id == "missing-id") = false) ∧
    ((updateFoodItemQuantity stateWithItem "missing-id" 5).error = stateWithItem.error ∧
     (updateFoodItemQuantity stateWithItem "missing-id" 5).currentPlan = some planWithItem ∧
     (updateFoodItemQuantity stateWithItem "missing-id" 5).history.past =
       stateWithItem.history.past ++ [planWithItem] ∧
     (updateFoodItemQuantity stateWithItem "missing-id" 5).history.future = []) := by
  have habs : ∀ item ∈ planWithItem.items, (item.id == "missing-id") = false := by
    simp [planWithItem, emptyPlan, sampleItem]
  exact ⟨rfl, habs, C6_missing_id_theorem stateWithItem planWithItem "missing-id" 5 rfl habs⟩

/-- C7 counterexample: on a concrete plan with 14 slots (hence at least one),
requesting a meal count of 0 is not rejected: no InvalidMealCount failure is
raised (error stays none) and the item numberOfMeals becomes 0, violating the
claimed post-clamp lower bound of 1. -/
theorem C7_meal_count_zero_accepted :
    ((updateFoodItemMealCount stateWithItem "food-1" 0).currentPlan.map
        (fun plan => plan.items.map (fun item => item.numberOfMeals))) = some [0] ∧
    (updateFoodItemMealCount stateWithItem "food-1" 0).error = none ∧
    (1 : ℤ) ≤ planWithItem.durationDays * planWithItem.mealsPerDay := by
  refine ⟨?_, ?_, by norm_num [planWithItem, emptyPlan]⟩
  · simp [updateFoodItemMealCount, stateWithItem, planWithItem, emptyPlan, sampleItem,
      updateFirst, updateMealCountItem, recalculateTotalCost]
  · simp [updateFoodItemMealCount, stateWithItem, planWithItem, emptyPlan, sampleItem,
      updateFirst, updateMealCountItem, recalculateTotalCost]

/-- C7 (amended): updateItemMealCount performs no lower-bound validation: a
requested meal count m ≤ 0 is not rejected (no error is raised, the error
field is untouched) and the matched item numberOfMeals is set to
min(m, slots), which equals the requested m itself whenever the plan has a
nonnegative slot count; no post-clamp lower bound of 1 holds. -/
theorem C7_no_validation_theorem (s : PlannerState) (plan : PlannerMealPlan)
    (foodItemId : String) (m : ℤ) (hplan : s.currentPlan = some plan) (hm : m ≤ 0)
    (hslots : 0 ≤ plan.durationDays * plan.mealsPerDay) :
    (updateFoodItemMealCount s foodItemId m).error = s.error ∧
    ∀ newItems, updateFirst (fun item => item.id == foodItemId)
        (updateMealCountItem (plan.durationDays * plan.mealsPerDay) m) plan.items =
          some newItems →
      (updateFoodItemMealCount s foodItemId m).currentPlan =
        some (recalculateTotalCost { plan with items := newItems }) ∧
      ∃ item ∈ newItems, (item.id == foodItemId) = true ∧ item.numberOfMeals = m := by
  constructor
  · cases hu : updateFirst (fun item => item.id == foodItemId)
        (updateMealCountItem (plan.durationDays * plan.mealsPerDay) m) plan.items <;>
      simp [updateFoodItemMealCount, hplan, hu]
  · intro newItems hu
    constructor
    · simp [updateFoodItemMealCount, hplan, hu]
    · obtain ⟨a, ha, hpa, hfa⟩ := updateFirst_exists hu
      refine ⟨updateMealCountItem (plan.durationDays * plan.mealsPerDay) m a, hfa, ?_, ?_⟩
      · simpa [updateMealCountItem] using hpa
      · simp only [updateMealCountItem]
        exact min_eq_left (le_trans hm hslots)

/-- C7 witness: the amended statement instantiated with requested count 0 on
the concrete one-item plan. -/
theorem C7_no_validation_theorem_witness :
    stateWithItem.currentPlan = some planWithItem ∧
    (0 : ℤ) ≤ 0 ∧
    (0 : ℤ) ≤ planWithItem.durationDays * planWithItem.mealsPerDay ∧
    ((updateFoodItemMealCount stateWithItem "food-1" 0).error = stateWithItem.error ∧
     ∀ newItems, updateFirst (fun item => item.id == "food-1")
        (updateMealCountItem (planWithItem.durationDays * planWithItem.mealsPerDay) 0)
          planWithItem.items = some newItems →
      (updateFoodItemMealCount stateWithItem "food-1" 0).currentPlan =
        some (recalculateTotalCost { planWithItem with items := newItems }) ∧
      ∃ item ∈ newItems, (item.id == "food-1") = true ∧ item.numberOfMeals = 0) :=
  ⟨rfl, le_refl 0, by norm_num [planWithItem, emptyPlan],
   C7_no_validation_theorem stateWithItem planWithItem "food-1" 0 rfl (le_refl 0)
     (by norm_num [planWithItem, emptyPlan])⟩

/-- C8: for a 10 kg dog at moderate activity with measure unit grams the
calculator yields a daily portion of 250 and, with 2 meals per day, a meal
portion of 125; in grams mode the daily portion is weightKg * 1000 * the
fixed activity multiplier, rounded to 0 decimal places, with the multiplier
table puppy 0.04, low 0.02, moderate 0.025, high 0.03, senior 0.0175. -/
theorem C8_portion_scenarioB :
    dailyPortion 10 .kg .moderate .g = 250 ∧
    mealPortion 10 .kg .moderate .g 2 = some 125 ∧
    (∀ weight activityLevel, dailyPortion weight .kg activityLevel .g =
        roundDp0 (weight * 1000 * ACTIVITY_MULTIPLIERS activityLevel)) ∧
    ACTIVITY_MULTIPLIERS .puppy = 0.04 ∧
    ACTIVITY_MULTIPLIERS .low = 0.02 ∧
    ACTIVITY_MULTIPLIERS .moderate = 0.025 ∧
    ACTIVITY_MULTIPLIERS .high = 0.03 ∧
    ACTIVITY_MULTIPLIERS .senior = 0.0175 := by
  refine ⟨?_, ?_, fun weight activityLevel => rfl, rfl, rfl, rfl, rfl, rfl⟩
  · simp only [dailyPortion, rawDailyPortion, roundDp0, ACTIVITY_MULTIPLIERS]
    norm_num
  · simp only [mealPortion, rawDailyPortion, roundDp0, ACTIVITY_MULTIPLIERS]
    norm_num

/-- C9: with all other inputs held fixed, a larger (positive) weight never
gives a smaller estimated daily portion. -/
theorem C9_portion_monotone (w1 w2 : ℚ) (weightUnit : WeightUnit)
    (activityLevel : ActivityLevel) (measureUnit : MeasureUnit)
    (hpos : 0 < w1) (h : w1 ≤ w2) :
    dailyPortion w1 weightUnit activityLevel measureUnit ≤
      dailyPortion w2 weightUnit activityLevel measureUnit :=
  roundDp0_mono (rawDailyPortion_mono weightUnit activityLevel measureUnit h)

/-- C9 witness: monotonicity instantiated at weights 1 and 2 kg. -/
theorem C9_portion_monotone_witness :
    (0 : ℚ) < 1 ∧ (1 : ℚ) ≤ 2 ∧
    dailyPortion 1 .kg .moderate .g ≤ dailyPortion 2 .kg .moderate .g :=
  ⟨by norm_num, by norm_num,
   C9_portion_monotone 1 2 .kg .moderate .g (by norm_num) (by norm_num)⟩

/-- C10: when updateFoodItemQuantity, updateFoodItemMealCount or
removeFoodItem is called with an item id absent from the (consistent) current
plan, the current plan is unchanged, yet a snapshot is still pushed onto
history.past and history.future is cleared: the failed lookup consumes an
undo step and destroys any pending redo history. -/
theorem C10_failed_lookup_consumes_history (s : PlannerState) (plan : PlannerMealPlan)
    (foodItemId : String) (q : ℚ) (m : ℤ)
    (hplan : s.currentPlan = some plan)
    (hcons : planConsistent plan)
    (habsent : ∀ item ∈ plan.items, (item.id == foodItemId) = false) :
    ((updateFoodItemQuantity s foodItemId q).currentPlan = some plan ∧
     (updateFoodItemQuantity s foodItemId q).history.past = s.history.past ++ [plan] ∧
     (updateFoodItemQuantity s foodItemId q).history.future = []) ∧
    ((updateFoodItemMealCount s foodItemId m).currentPlan = some plan ∧
     (updateFoodItemMealCount s foodItemId m).history.past = s.history.past ++ [plan] ∧
     (updateFoodItemMealCount s foodItemId m).history.future = []) ∧
    ((removeFoodItem s foodItemId).currentPlan = some plan ∧
     (removeFoodItem s foodItemId).history.past = s.history.past ++ [plan] ∧
     (removeFoodItem s foodItemId).history.future = []) := by
  have hu1 : updateFirst (fun item => item.id == foodItemId)
      (updateQuantityItem q) plan.items = none := updateFirst_eq_none.mpr habsent
  have hu2 : updateFirst (fun item => item.id == foodItemId)
      (updateMealCountItem (plan.durationDays * plan.mealsPerDay) m) plan.items = none :=
    updateFirst_eq_none.mpr habsent
  have hfilter : plan.items.filter (fun item => !(item.id == foodItemId)) = plan.items :=
    List.filter_eq_self.mpr (fun a ha => by simp [habsent a ha])
  have hrecalc : recalculateTotalCost plan = plan := by
    show { plan with totalCost := sumItemCosts plan.items } = plan
    rw [← hcons]
  refine ⟨?_, ?_, ?_⟩ <;>
    simp [updateFoodItemQuantity, updateFoodItemMealCount, removeFoodItem, hplan, hu1, hu2,
      hfilter, hrecalc]

/-- C10 witness: the statement instantiated on the concrete one-item plan and
an absent id. -/
theorem C10_failed_lookup_consumes_history_witness :
    stateWithItem.currentPlan = some planWithItem ∧
    planConsistent planWithItem ∧
    (∀ item ∈ planWithItem.items, (item.id == "missing-id") = false) ∧
    (((updateFoodItemQuantity stateWithItem "missing-id" 5).currentPlan = some planWithItem ∧
      (updateFoodItemQuantity stateWithItem "missing-id" 5).history.past =
        stateWithItem.history.past ++ [planWithItem] ∧
      (updateFoodItemQuantity stateWithItem "missing-id" 5).history.future = []) ∧
     ((updateFoodItemMealCount stateWithItem "missing-id" 3).currentPlan = some planWithItem ∧
      (updateFoodItemMealCount stateWithItem "missing-id" 3).history.past =
        stateWithItem.history.past ++ [planWithItem] ∧
      (updateFoodItemMealCount stateWithItem "missing-id" 3).history.future = []) ∧
     ((removeFoodItem stateWithItem "missing-id").currentPlan = some planWithItem ∧
      (removeFoodItem stateWithItem "missing-id").history.past =
        stateWithItem.history.past ++ [planWithItem] ∧
      (removeFoodItem stateWithItem "missing-id").history.future = [])) := by
  have hcons : planConsistent planWithItem := by
    simp [planConsistent, planWithItem, emptyPlan, sampleItem, sumItemCosts]
  have habs : ∀ item ∈ planWithItem.items, (item.id == "missing-id") = false := by
    simp [planWithItem, emptyPlan, sampleItem]
  exact ⟨rfl, hcons, habs,
    C10_failed_lookup_consumes_history stateWithItem planWithItem "missing-id" 5 3 rfl hcons habs⟩

end Rawdawg
